import Mathlib

/-!
Verification development for the tth-htt object-selection and
correction-weight engine.

The C++ sources are shallowly embedded:
* `double` values that only feed comparisons against literal thresholds and
  exact products of literals are modelled as `ℚ`;
* `Int_t` is modelled as `ℤ`;
* a C `assert(0)` (abort, never returns) is modelled as `Option.none` /
  `Except.error`;
* the histogram lookup tables of the correction engine reference external
  data files (empty placeholder names in the source), so the per-lookup
  results are injected as a parameter structure `Luts`, as the spec directs
  for lookup-table contents.
-/

namespace TthHtt

/-- Modelled from the spec: the lepton-type enumeration `leptonTypes.h` is
not among the given sources; the spec only distinguishes the electron kind,
the muon kind, and unrecognized kinds, so the two constants are modelled as
distinct integers in declaration order. -/
def kElectron : Int := 0

/-- Modelled from the spec: see `kElectron`. -/
def kMuon : Int := 1

/-- The lookup tables used by the identification/isolation scale-factor
stages of `data_to_MC_corrections.cc`.  Their contents come from external
data files (placeholder names in the source), so each `loadTH2`/`loadTH1`
plus `get_sf_from_TH2`/`get_sf_from_TH1` pair is modelled as an injected
function (2D lookups take pt and eta, 1D lookups one coordinate). -/
structure Luts where
  el_id_loose : ℚ → ℚ → ℚ
  el_iso : ℚ → ℚ → ℚ
  el_convVeto : ℚ → ℚ → ℚ
  el_id_tight_barrel : ℚ → ℚ
  el_id_tight_endcap : ℚ → ℚ
  mu_id_loose : ℚ → ℚ → ℚ
  mu_iso_barrel : ℚ → ℚ
  mu_iso_endcap : ℚ → ℚ
  mu_ip : ℚ → ℚ
  mu_id_tight_barrel : ℚ → ℚ
  mu_id_tight_endcap : ℚ → ℚ

/-- Embedding of `sf_triggerEff` (two-lepton form), `data_to_MC_corrections.cc` lines
13-23. -/
def sf_triggerEff2 (lepton1_type : Int) (lepton1_pt _lepton1_eta : ℚ)
    (lepton2_type : Int) (lepton2_pt _lepton2_eta : ℚ) : ℚ :=
  if lepton1_type = kElectron ∧ lepton2_type = kElectron then
    if max lepton1_pt lepton2_pt > 40 then 0.99 else 0.95
  else if lepton1_type = kMuon ∧ lepton2_type = kMuon then 0.98
  else 1.00

/-- Embedding of `sf_electronID_and_Iso_loose`: product of the loose-identification and
isolation lookups. -/
def sf_electronID_and_Iso_loose (luts : Luts) (electron_pt electron_eta : ℚ) : ℚ :=
  luts.el_id_loose electron_pt electron_eta * luts.el_iso electron_pt electron_eta

/-- Embedding of `sf_electronID_and_Iso_tight_to_loose`: conversion-veto lookup times
the tight-identification lookup, barrel/endcap split at `|eta| < 1.479`. -/
def sf_electronID_and_Iso_tight_to_loose (luts : Luts) (electron_pt electron_eta : ℚ) : ℚ :=
  luts.el_convVeto electron_pt electron_eta *
    (if |electron_eta| < 1.479 then luts.el_id_tight_barrel electron_pt
     else luts.el_id_tight_endcap electron_pt)

/-- Embedding of `sf_electronID_and_Iso_tight = loose * tight_to_loose`. -/
def sf_electronID_and_Iso_tight (luts : Luts) (electron_pt electron_eta : ℚ) : ℚ :=
  sf_electronID_and_Iso_loose luts electron_pt electron_eta *
    sf_electronID_and_Iso_tight_to_loose luts electron_pt electron_eta

/-- Embedding of `sf_muonID_and_Iso_loose`: loose-identification lookup times the
isolation lookup (barrel/endcap split at `|eta| < 1.2`) times the
impact-parameter lookup (a function of eta). -/
def sf_muonID_and_Iso_loose (luts : Luts) (muon_pt muon_eta : ℚ) : ℚ :=
  luts.mu_id_loose muon_pt muon_eta *
    (if |muon_eta| < 1.2 then luts.mu_iso_barrel muon_pt
     else luts.mu_iso_endcap muon_pt) *
    luts.mu_ip muon_eta

/-- Embedding of `sf_muonID_and_Iso_tight_to_loose`: tight-identification lookup only,
barrel/endcap split at `|eta| < 1.2`. -/
def sf_muonID_and_Iso_tight_to_loose (luts : Luts) (muon_pt muon_eta : ℚ) : ℚ :=
  if |muon_eta| < 1.2 then luts.mu_id_tight_barrel muon_pt
  else luts.mu_id_tight_endcap muon_pt

/-- Embedding of `sf_muonID_and_Iso_tight = loose * tight_to_loose`. -/
def sf_muonID_and_Iso_tight (luts : Luts) (muon_pt muon_eta : ℚ) : ℚ :=
  sf_muonID_and_Iso_loose luts muon_pt muon_eta *
    sf_muonID_and_Iso_tight_to_loose luts muon_pt muon_eta

/-- Per-lepton dispatch used by `sf_leptonID_and_Iso_loose`: electron and
muon kinds select their stage, any other kind hits `assert(0)` (`none`). -/
def leptonDispatch (elF muF : Luts → ℚ → ℚ → ℚ) (luts : Luts)
    (lepton_type : Int) (lepton_pt lepton_eta : ℚ) : Option ℚ :=
  if lepton_type = kElectron then some (elF luts lepton_pt lepton_eta)
  else if lepton_type = kMuon then some (muF luts lepton_pt lepton_eta)
  else none

/-- Embedding of `sf_leptonID_and_Iso_loose` (two-lepton form), lines 184-198: per-lepton
loose factors multiplied; unrecognized kind on either lepton aborts. -/
def sf_leptonID_and_Iso_loose2 (luts : Luts) (lepton1_type : Int)
    (lepton1_pt lepton1_eta : ℚ) (lepton2_type : Int)
    (lepton2_pt lepton2_eta : ℚ) : Option ℚ := do
  let lepton1_sf ← leptonDispatch sf_electronID_and_Iso_loose sf_muonID_and_Iso_loose
    luts lepton1_type lepton1_pt lepton1_eta
  let lepton2_sf ← leptonDispatch sf_electronID_and_Iso_loose sf_muonID_and_Iso_loose
    luts lepton2_type lepton2_pt lepton2_eta
  pure (lepton1_sf * lepton2_sf)

/-- Embedding of `sf_leptonID_and_Iso_fakeable_to_loose` (two-lepton form), lines
200-203: identically 1. -/
def sf_leptonID_and_Iso_fakeable_to_loose2 (_luts : Luts) (_lepton1_type : Int)
    (_lepton1_pt _lepton1_eta : ℚ) (_lepton2_type : Int)
    (_lepton2_pt _lepton2_eta : ℚ) : Option ℚ :=
  some 1

/-- Embedding of `sf_leptonID_and_Iso_fakeable` (two-lepton form), lines 205-210:
`loose * fakeable_to_loose`. -/
def sf_leptonID_and_Iso_fakeable2 (luts : Luts) (lepton1_type : Int)
    (lepton1_pt lepton1_eta : ℚ) (lepton2_type : Int)
    (lepton2_pt lepton2_eta : ℚ) : Option ℚ := do
  let sf_loose ← sf_leptonID_and_Iso_loose2 luts lepton1_type lepton1_pt lepton1_eta
    lepton2_type lepton2_pt lepton2_eta
  let sf_fakeable_to_loose ← sf_leptonID_and_Iso_fakeable_to_loose2 luts lepton1_type
    lepton1_pt lepton1_eta lepton2_type lepton2_pt lepton2_eta
  pure (sf_loose * sf_fakeable_to_loose)

/-- Embedding of `sf_leptonID_and_Iso_tight_to_loose` (two-lepton form), lines 212-226. -/
def sf_leptonID_and_Iso_tight_to_loose2 (luts : Luts) (lepton1_type : Int)
    (lepton1_pt lepton1_eta : ℚ) (lepton2_type : Int)
    (lepton2_pt lepton2_eta : ℚ) : Option ℚ := do
  let lepton1_sf ← leptonDispatch sf_electronID_and_Iso_tight_to_loose
    sf_muonID_and_Iso_tight_to_loose luts lepton1_type lepton1_pt lepton1_eta
  let lepton2_sf ← leptonDispatch sf_electronID_and_Iso_tight_to_loose
    sf_muonID_and_Iso_tight_to_loose luts lepton2_type lepton2_pt lepton2_eta
  pure (lepton1_sf * lepton2_sf)

/-- Embedding of `sf_leptonID_and_Iso_tight` (two-lepton form), lines 228-233:
`loose * tight_to_loose`. -/
def sf_leptonID_and_Iso_tight2 (luts : Luts) (lepton1_type : Int)
    (lepton1_pt lepton1_eta : ℚ) (lepton2_type : Int)
    (lepton2_pt lepton2_eta : ℚ) : Option ℚ := do
  let sf_loose ← sf_leptonID_and_Iso_loose2 luts lepton1_type lepton1_pt lepton1_eta
    lepton2_type lepton2_pt lepton2_eta
  let sf_tight_to_loose ← sf_leptonID_and_Iso_tight_to_loose2 luts lepton1_type
    lepton1_pt lepton1_eta lepton2_type lepton2_pt lepton2_eta
  pure (sf_loose * sf_tight_to_loose)

/-- Embedding of `sf_triggerEff` (one-lepton form), lines 241-251. -/
def sf_triggerEff1 (lepton1_type : Int) (lepton1_pt _lepton1_eta : ℚ) : ℚ :=
  if lepton1_type = kElectron then
    if lepton1_pt > 40 then 0.99 else 0.95
  else if lepton1_type = kMuon then 0.98
  else 1.00

/-- Embedding of `sf_leptonID_and_Iso_loose` (one-lepton form), lines 254-261. -/
def sf_leptonID_and_Iso_loose1 (luts : Luts) (lepton1_type : Int)
    (lepton1_pt lepton1_eta : ℚ) : Option ℚ :=
  leptonDispatch sf_electronID_and_Iso_loose sf_muonID_and_Iso_loose
    luts lepton1_type lepton1_pt lepton1_eta

/-- Embedding of `sf_leptonID_and_Iso_fakeable_to_loose` (one-lepton form), lines
270-273: identically 1. -/
def sf_leptonID_and_Iso_fakeable_to_loose1 (_luts : Luts) (_lepton1_type : Int)
    (_lepton1_pt _lepton1_eta : ℚ) : Option ℚ :=
  some 1

/-- Embedding of `sf_leptonID_and_Iso_fakeable` (one-lepton form), lines 263-268. -/
def sf_leptonID_and_Iso_fakeable1 (luts : Luts) (lepton1_type : Int)
    (lepton1_pt lepton1_eta : ℚ) : Option ℚ := do
  let sf_loose ← sf_leptonID_and_Iso_loose1 luts lepton1_type lepton1_pt lepton1_eta
  let sf_fakeable_to_loose ← sf_leptonID_and_Iso_fakeable_to_loose1 luts lepton1_type
    lepton1_pt lepton1_eta
  pure (sf_loose * sf_fakeable_to_loose)

/-- Embedding of `sf_leptonID_and_Iso_tight_to_loose` (one-lepton form), lines 282-289. -/
def sf_leptonID_and_Iso_tight_to_loose1 (luts : Luts) (lepton1_type : Int)
    (lepton1_pt lepton1_eta : ℚ) : Option ℚ :=
  leptonDispatch sf_electronID_and_Iso_tight_to_loose sf_muonID_and_Iso_tight_to_loose
    luts lepton1_type lepton1_pt lepton1_eta

/-- Embedding of `sf_leptonID_and_Iso_tight` (one-lepton form), lines 275-280. -/
def sf_leptonID_and_Iso_tight1 (luts : Luts) (lepton1_type : Int)
    (lepton1_pt lepton1_eta : ℚ) : Option ℚ := do
  let sf_loose ← sf_leptonID_and_Iso_loose1 luts lepton1_type lepton1_pt lepton1_eta
  let sf_tight_to_loose ← sf_leptonID_and_Iso_tight_to_loose1 luts lepton1_type
    lepton1_pt lepton1_eta
  pure (sf_loose * sf_tight_to_loose)

/-- Embedding of `prob_chargeMisId` from `backgroundEstimation.cc` lines 13-31: electron
probabilities binned in |eta| and pt with pre-initialized default 1;
muons give 1; any other kind hits `assert(0)` (`none`). -/
def prob_chargeMisId (lepton_type : Int) (lepton_pt lepton_eta : ℚ) : Option ℚ :=
  if lepton_type = kElectron then
    let abs_lepton_eta := |lepton_eta|
    some (if abs_lepton_eta ≥ 0 ∧ abs_lepton_eta < 1.479 then
      if lepton_pt ≥ 10 ∧ lepton_pt < 25 then 0.0301
      else if lepton_pt ≥ 25 ∧ lepton_pt < 50 then 0.0287
      else if lepton_pt ≥ 50 then 0.0293
      else 1
    else if abs_lepton_eta ≥ 1.479 ∧ abs_lepton_eta < 2.5 then
      if lepton_pt ≥ 10 ∧ lepton_pt < 25 then 0.1728
      else if lepton_pt ≥ 25 ∧ lepton_pt < 50 then 0.1974
      else if lepton_pt ≥ 50 then 0.3457
      else 1
    else 1)
  else if lepton_type = kMuon then some 1
  else none

/-- The reconstructed hadronic tau record.  `RecoHadTau.h` is not among the
given sources; the fields are those the 19-argument constructor call in
`RecoHadTauReader::read` supplies and the tight selector reads (the spec's
"kinematic record + charge + impact parameters + discriminant families",
with the stored absolute pseudorapidity derived from eta). -/
structure RecoHadTau where
  pt : ℚ
  eta : ℚ
  phi : ℚ
  mass : ℚ
  charge : Int
  dxy : ℚ
  dz : ℚ
  absEta : ℚ
  decayModeFinding : Int
  decayModeFindingNew : Int
  id_mva_dR03 : Int
  raw_mva_dR03 : ℚ
  id_mva_dR05 : Int
  raw_mva_dR05 : ℚ
  id_cut_dR03 : Int
  raw_cut_dR03 : ℚ
  id_cut_dR05 : Int
  raw_cut_dR05 : ℚ
  antiElectron : Int
  antiMuon : Int
  deriving Repr, DecidableEq

/-- The `RecoHadTau` constructor in argument order of the call in
`RecoHadTauReader::read`; the stored `absEta` is `|eta|`. -/
def mkRecoHadTau (pt eta phi mass : ℚ) (charge : Int) (dxy dz : ℚ)
    (idDecayMode idDecayModeNewDMs idMVA_dR03 : Int) (rawMVA_dR03 : ℚ)
    (idMVA_dR05 : Int) (rawMVA_dR05 : ℚ) (idCombIso_dR03 : Int)
    (rawCombIso_dR03 : ℚ) (idCombIso_dR05 : Int) (rawCombIso_dR05 : ℚ)
    (idAgainstElec idAgainstMu : Int) : RecoHadTau :=
  { pt := pt, eta := eta, phi := phi, mass := mass, charge := charge
    dxy := dxy, dz := dz, absEta := |eta|
    decayModeFinding := idDecayMode, decayModeFindingNew := idDecayModeNewDMs
    id_mva_dR03 := idMVA_dR03, raw_mva_dR03 := rawMVA_dR03
    id_mva_dR05 := idMVA_dR05, raw_mva_dR05 := rawMVA_dR05
    id_cut_dR03 := idCombIso_dR03, raw_cut_dR03 := rawCombIso_dR03
    id_cut_dR05 := idCombIso_dR05, raw_cut_dR05 := rawCombIso_dR05
    antiElectron := idAgainstElec, antiMuon := idAgainstMu }

/-- Threshold set of `RecoHadTauSelectorTight`. -/
structure RecoHadTauSelectorTight where
  min_pt : ℚ
  max_absEta : ℚ
  max_dz : ℚ
  min_decayModeFinding : Int
  min_id_mva_dR03 : Int
  min_raw_mva_dR03 : ℚ
  min_id_mva_dR05 : Int
  min_raw_mva_dR05 : ℚ
  min_id_cut_dR03 : Int
  max_raw_cut_dR03 : ℚ
  min_id_cut_dR05 : Int
  max_raw_cut_dR05 : ℚ
  min_antiElectron : Int
  min_antiMuon : Int

/-- The default constructor `RecoHadTauSelectorTight::RecoHadTauSelectorTight`,
`RecoHadTauSelectorTight.cc` lines 5-20. -/
def RecoHadTauSelectorTight.mkDefault : RecoHadTauSelectorTight :=
  { min_pt := 20
    max_absEta := 2.3
    max_dz := 0.2
    min_decayModeFinding := 1
    min_id_mva_dR03 := -1000
    min_raw_mva_dR03 := -1000000
    min_id_mva_dR05 := -1000
    min_raw_mva_dR05 := -1000000
    min_id_cut_dR03 := -1000
    max_raw_cut_dR03 := 1000000
    min_id_cut_dR05 := 1
    max_raw_cut_dR05 := 1000000
    min_antiElectron := -1000
    min_antiMuon := -1000 }

/-- Embedding of `RecoHadTauSelectorTight::operator()`, lines 22-41: conjunction of the
fourteen threshold comparisons. -/
def RecoHadTauSelectorTight.eval (s : RecoHadTauSelectorTight)
    (hadTau : RecoHadTau) : Bool :=
  hadTau.pt ≥ s.min_pt &&
  hadTau.absEta ≤ s.max_absEta &&
  |hadTau.dz| ≤ s.max_dz &&
  hadTau.decayModeFinding ≥ s.min_decayModeFinding &&
  hadTau.id_mva_dR03 ≥ s.min_id_mva_dR03 &&
  hadTau.raw_mva_dR03 ≥ s.min_raw_mva_dR03 &&
  hadTau.id_mva_dR05 ≥ s.min_id_mva_dR05 &&
  hadTau.raw_mva_dR05 ≥ s.min_raw_mva_dR05 &&
  hadTau.id_cut_dR03 ≥ s.min_id_cut_dR03 &&
  hadTau.raw_cut_dR03 ≤ s.max_raw_cut_dR03 &&
  hadTau.id_cut_dR05 ≥ s.min_id_cut_dR05 &&
  hadTau.raw_cut_dR05 ≤ s.max_raw_cut_dR05 &&
  hadTau.antiElectron ≥ s.min_antiElectron &&
  hadTau.antiMuon ≥ s.min_antiMuon

/-- The fields of the reconstructed muon read by the fakeable selector.
`RecoLepton.h` (the base of `interface/RecoMuon.h`) is not among the given
sources; the base fields are those `RecoMuonSelectorFakeable::operator()`
accesses, the muon-specific flags come from `interface/RecoMuon.h`. -/
structure RecoMuon where
  pt : ℚ
  absEta : ℚ
  dxy : ℚ
  dz : ℚ
  relIso : ℚ
  sip3d : ℚ
  mvaRawTTH : ℚ
  jetPtRatio : ℚ
  jetBtagCSV : ℚ
  tightCharge : Int
  passesLooseIdPOG : Int
  passesMediumIdPOG : Int
  deriving Repr, DecidableEq

/-- Embedding of `RecoMuon::is_electron`, hard-wired in `interface/RecoMuon.h`. -/
def RecoMuon.is_electron (_muon : RecoMuon) : Bool := false

/-- Embedding of `RecoMuon::is_muon`, hard-wired in `interface/RecoMuon.h`. -/
def RecoMuon.is_muon (_muon : RecoMuon) : Bool := true

/-- Threshold set of `RecoMuonSelectorFakeable`; the per-bin vectors are
kept as lists exactly as in the source. -/
structure RecoMuonSelectorFakeable where
  min_pt : ℚ
  max_absEta : ℚ
  max_dxy : ℚ
  max_dz : ℚ
  max_relIso : ℚ
  max_sip3d : ℚ
  apply_looseIdPOG : Bool
  binning_mvaTTH : List ℚ
  min_jetPtRatio : List ℚ
  max_jetBtagCSV : List ℚ
  apply_mediumIdPOG : Bool
  apply_tightCharge : Bool

/-- The default constructor `RecoMuonSelectorFakeable::RecoMuonSelectorFakeable`,
`RecoMuonSelectorFakeable.cc` lines 5-18. -/
def RecoMuonSelectorFakeable.mkDefault : RecoMuonSelectorFakeable :=
  { min_pt := 10
    max_absEta := 2.4
    max_dxy := 0.05
    max_dz := 0.1
    max_relIso := 0.4
    max_sip3d := 8
    apply_looseIdPOG := true
    binning_mvaTTH := [0.75]
    min_jetPtRatio := [0.30, -1000]
    max_jetBtagCSV := [0.605, 0.89]
    apply_mediumIdPOG := false
    apply_tightCharge := false }

/-- Embedding of `RecoMuonSelectorFakeable::operator()`, lines 20-39: primary cuts, then
the mvaRawTTH bin index selects the secondary jetPtRatio/jetBtagCSV pair
(list lookups default to 0 out of range, which the asserted `0 ≤ idxBin ≤ 1`
makes unreachable). -/
def RecoMuonSelectorFakeable.eval (s : RecoMuonSelectorFakeable)
    (muon : RecoMuon) : Bool :=
  if muon.pt ≥ s.min_pt &&
     muon.absEta ≤ s.max_absEta &&
     |muon.dxy| ≤ s.max_dxy &&
     |muon.dz| ≤ s.max_dz &&
     muon.relIso ≤ s.max_relIso &&
     muon.sip3d ≤ s.max_sip3d &&
     (muon.passesLooseIdPOG ≠ 0 || !s.apply_looseIdPOG) &&
     (muon.passesMediumIdPOG ≠ 0 || !s.apply_mediumIdPOG) &&
     (muon.tightCharge ≥ 2 || !s.apply_tightCharge) then
    let idxBin : Nat := if muon.mvaRawTTH ≥ s.binning_mvaTTH.getD 0 0 then 0 else 1
    muon.jetPtRatio ≥ s.min_jetPtRatio.getD idxBin 0 &&
      muon.jetBtagCSV ≤ s.max_jetBtagCSV.getD idxBin 0
  else false

/-- Embedding of `ParticleCollectionSelector::operator()`,
`interface/ParticleCollectionSelector.h` lines 15-25: iterate over the
input references in order, appending those the selector accepts. -/
def particleCollectionSelector {Tobj : Type} (sel : Tobj → Bool) :
    List Tobj → List Tobj
  | [] => []
  | particle :: particles =>
    if sel particle then particle :: particleCollectionSelector sel particles
    else particleCollectionSelector sel particles

/-- The generic reconstructed lepton of `bin/RecoLepton.cc` with the fields
its constructor stores. -/
structure RecoLepton where
  dxy : ℚ
  dz : ℚ
  rel_iso : ℚ
  sip3d : ℚ
  mass : ℚ
  pt : ℚ
  eta : ℚ
  mva_tth : ℚ
  phi : ℚ
  pdg_id : Int
  med_mu_id : Int
  ele_mva_id : Int
  lost_hits : Int
  loose_id : Int
  tight_charge : Int
  pass_conv_veto : Int
  deriving Repr, DecidableEq

/-- Embedding of `RecoLepton::is_electron`, `bin/RecoLepton.cc` lines 41-45:
`|pdg_id| == 11`. -/
def RecoLepton.is_electron (l : RecoLepton) : Bool := l.pdg_id.natAbs = 11

/-- Embedding of `RecoLepton::is_muon`, `bin/RecoLepton.cc` lines 47-51:
`|pdg_id| == 13`. -/
def RecoLepton.is_muon (l : RecoLepton) : Bool := l.pdg_id.natAbs = 13

/-- A constructed instance of the lepton hierarchy given in the sources:
either the generic base (`bin/RecoLepton.cc`) or the concrete muon variant
(`interface/RecoMuon.h`). -/
inductive LeptonInstance where
  | base (l : RecoLepton)
  | muon (m : RecoMuon)
  deriving Repr, DecidableEq

/-- Embedding of `is_electron()` across the hierarchy: PDG-id test in the base,
hard-wired `false` in the muon variant. -/
def LeptonInstance.is_electron : LeptonInstance → Bool
  | .base l => l.is_electron
  | .muon m => m.is_electron

/-- Embedding of `is_muon()` across the hierarchy: PDG-id test in the base, hard-wired
`true` in the muon variant. -/
def LeptonInstance.is_muon : LeptonInstance → Bool
  | .base l => l.is_muon
  | .muon m => m.is_muon

/-- Per-event reader state of `RecoHadTauReader`: the stored count and the
parallel fixed-capacity field arrays the branch addresses point into
(modelled as index functions). -/
structure RecoHadTauReaderState where
  nHadTaus : Int
  hadTau_pt : Nat → ℚ
  hadTau_eta : Nat → ℚ
  hadTau_phi : Nat → ℚ
  hadTau_mass : Nat → ℚ
  hadTau_charge : Nat → Int
  hadTau_dxy : Nat → ℚ
  hadTau_dz : Nat → ℚ
  hadTau_idDecayMode : Nat → Int
  hadTau_idDecayModeNewDMs : Nat → Int
  hadTau_idMVA_dR03 : Nat → Int
  hadTau_rawMVA_dR03 : Nat → ℚ
  hadTau_idMVA_dR05 : Nat → Int
  hadTau_rawMVA_dR05 : Nat → ℚ
  hadTau_idCombIso_dR03 : Nat → Int
  hadTau_rawCombIso_dR03 : Nat → ℚ
  hadTau_idCombIso_dR05 : Nat → Int
  hadTau_rawCombIso_dR05 : Nat → ℚ
  hadTau_idAgainstElec : Nat → Int
  hadTau_idAgainstMu : Nat → Int

/-- Embedding of `max_nHadTaus_`, set to 32 by both `RecoHadTauReader` constructors. -/
def max_nHadTaus : Int := 32

/-- The record `RecoHadTauReader::read` builds from entry `idxHadTau` of
each parallel field array. -/
def RecoHadTauReaderState.entry (g : RecoHadTauReaderState)
    (idxHadTau : Nat) : RecoHadTau :=
  mkRecoHadTau
    (g.hadTau_pt idxHadTau)
    (g.hadTau_eta idxHadTau)
    (g.hadTau_phi idxHadTau)
    (g.hadTau_mass idxHadTau)
    (g.hadTau_charge idxHadTau)
    (g.hadTau_dxy idxHadTau)
    (g.hadTau_dz idxHadTau)
    (g.hadTau_idDecayMode idxHadTau)
    (g.hadTau_idDecayModeNewDMs idxHadTau)
    (g.hadTau_idMVA_dR03 idxHadTau)
    (g.hadTau_rawMVA_dR03 idxHadTau)
    (g.hadTau_idMVA_dR05 idxHadTau)
    (g.hadTau_rawMVA_dR05 idxHadTau)
    (g.hadTau_idCombIso_dR03 idxHadTau)
    (g.hadTau_rawCombIso_dR03 idxHadTau)
    (g.hadTau_idCombIso_dR05 idxHadTau)
    (g.hadTau_rawCombIso_dR05 idxHadTau)
    (g.hadTau_idAgainstElec idxHadTau)
    (g.hadTau_idAgainstMu idxHadTau)

/-- Embedding of `RecoHadTauReader::read`, `RecoHadTauReader.cc` lines 173-207: throw a
`cms::Exception` when the stored count exceeds `max_nHadTaus_`, otherwise
build one record per index `0 .. nHadTaus-1`. -/
def RecoHadTauReaderState.read (g : RecoHadTauReaderState) :
    Except String (List RecoHadTau) :=
  if g.nHadTaus > max_nHadTaus then
    .error "Number of hadronic taus stored in Ntuple exceeds max_nHadTaus"
  else
    .ok ((List.range g.nHadTaus.toNat).map g.entry)

/-- The generator-level lepton of `GenLepton.cc`: kinematic record plus PDG
id; the constructor stores `charge_ = -pdgId / std::abs(pdgId)` (C++
truncating integer division, exact here).  Division by zero is undefined
behaviour in C++, modelled as `none` for `pdgId = 0`. -/
structure GenLepton where
  pt : ℚ
  eta : ℚ
  phi : ℚ
  mass : ℚ
  pdgId : Int
  charge : Int
  deriving Repr, DecidableEq

/-- The charge computation of the `GenLepton` constructor,
`GenLepton.cc` line 13. -/
def genLeptonCharge (pdgId : Int) : Int := -pdgId / (pdgId.natAbs : Int)

/-- The `GenLepton` constructor; `none` models the division by zero
(undefined behaviour) at `pdgId = 0`. -/
def mkGenLepton (pt eta phi mass : ℚ) (pdgId : Int) : Option GenLepton :=
  if pdgId = 0 then none
  else some { pt := pt, eta := eta, phi := phi, mass := mass, pdgId := pdgId
              charge := genLeptonCharge pdgId }

/-- A concrete lookup-table assignment (all lookups constant 1), used to
instantiate universally quantified statements at a concrete input. -/
def lutsOne : Luts :=
  { el_id_loose := fun _ _ => 1
    el_iso := fun _ _ => 1
    el_convVeto := fun _ _ => 1
    el_id_tight_barrel := fun _ => 1
    el_id_tight_endcap := fun _ => 1
    mu_id_loose := fun _ _ => 1
    mu_iso_barrel := fun _ => 1
    mu_iso_endcap := fun _ => 1
    mu_ip := fun _ => 1
    mu_id_tight_barrel := fun _ => 1
    mu_id_tight_endcap := fun _ => 1 }

/-- On a recognized lepton type the per-lepton dispatch returns a value. -/
lemma leptonDispatch_recognized (elF muF : Luts → ℚ → ℚ → ℚ) (luts : Luts)
    (t : Int) (pt eta : ℚ) (h : t = kElectron ∨ t = kMuon) :
    ∃ v, leptonDispatch elF muF luts t pt eta = some v := by
  rcases h with h | h <;> subst h
  · exact ⟨elF luts pt eta, by simp [leptonDispatch, kElectron, kMuon]⟩
  · exact ⟨muF luts pt eta, by simp [leptonDispatch, kElectron, kMuon]⟩

/-- C1: for every recognized lepton type (electron or muon) and all pt/eta
inputs, in both the one- and two-lepton forms, the tight ID+Iso scale
factor is exactly the loose factor times the tight-to-loose factor, and the
fakeable factor is the loose factor times the fakeable-to-loose factor,
the latter being identically 1. -/
theorem sf_leptonID_tiered_composition (luts : Luts) (t1 t2 : Int)
    (pt1 eta1 pt2 eta2 : ℚ)
    (h1 : t1 = kElectron ∨ t1 = kMuon) (h2 : t2 = kElectron ∨ t2 = kMuon) :
    (∃ l r, sf_leptonID_and_Iso_loose1 luts t1 pt1 eta1 = some l ∧
      sf_leptonID_and_Iso_tight_to_loose1 luts t1 pt1 eta1 = some r ∧
      sf_leptonID_and_Iso_tight1 luts t1 pt1 eta1 = some (l * r) ∧
      sf_leptonID_and_Iso_fakeable1 luts t1 pt1 eta1 = some (l * 1)) ∧
    sf_leptonID_and_Iso_fakeable_to_loose1 luts t1 pt1 eta1 = some 1 ∧
    (∃ l r, sf_leptonID_and_Iso_loose2 luts t1 pt1 eta1 t2 pt2 eta2 = some l ∧
      sf_leptonID_and_Iso_tight_to_loose2 luts t1 pt1 eta1 t2 pt2 eta2 = some r ∧
      sf_leptonID_and_Iso_tight2 luts t1 pt1 eta1 t2 pt2 eta2 = some (l * r) ∧
      sf_leptonID_and_Iso_fakeable2 luts t1 pt1 eta1 t2 pt2 eta2 = some (l * 1)) ∧
    sf_leptonID_and_Iso_fakeable_to_loose2 luts t1 pt1 eta1 t2 pt2 eta2 = some 1 := by
  obtain ⟨v1, hv1⟩ := leptonDispatch_recognized sf_electronID_and_Iso_loose
    sf_muonID_and_Iso_loose luts t1 pt1 eta1 h1
  obtain ⟨v2, hv2⟩ := leptonDispatch_recognized sf_electronID_and_Iso_loose
    sf_muonID_and_Iso_loose luts t2 pt2 eta2 h2
  obtain ⟨w1, hw1⟩ := leptonDispatch_recognized sf_electronID_and_Iso_tight_to_loose
    sf_muonID_and_Iso_tight_to_loose luts t1 pt1 eta1 h1
  obtain ⟨w2, hw2⟩ := leptonDispatch_recognized sf_electronID_and_Iso_tight_to_loose
    sf_muonID_and_Iso_tight_to_loose luts t2 pt2 eta2 h2
  refine ⟨⟨v1, w1, hv1, hw1, ?_, ?_⟩, rfl, ⟨v1 * v2, w1 * w2, ?_, ?_, ?_, ?_⟩, rfl⟩ <;>
    simp [sf_leptonID_and_Iso_tight1, sf_leptonID_and_Iso_fakeable1,
      sf_leptonID_and_Iso_loose1, sf_leptonID_and_Iso_tight_to_loose1,
      sf_leptonID_and_Iso_fakeable_to_loose1, sf_leptonID_and_Iso_loose2,
      sf_leptonID_and_Iso_tight_to_loose2, sf_leptonID_and_Iso_tight2,
      sf_leptonID_and_Iso_fakeable2, sf_leptonID_and_Iso_fakeable_to_loose2,
      hv1, hv2, hw1, hw2]

/-- Witness for C1 at a concrete input (both leptons electrons, constant
lookup tables). -/
theorem sf_leptonID_tiered_composition_witness :
    (∃ l r, sf_leptonID_and_Iso_loose1 lutsOne kElectron 30 1 = some l ∧
      sf_leptonID_and_Iso_tight_to_loose1 lutsOne kElectron 30 1 = some r ∧
      sf_leptonID_and_Iso_tight1 lutsOne kElectron 30 1 = some (l * r) ∧
      sf_leptonID_and_Iso_fakeable1 lutsOne kElectron 30 1 = some (l * 1)) ∧
    sf_leptonID_and_Iso_fakeable_to_loose1 lutsOne kElectron 30 1 = some 1 ∧
    (∃ l r, sf_leptonID_and_Iso_loose2 lutsOne kElectron 30 1 kElectron 20 2 = some l ∧
      sf_leptonID_and_Iso_tight_to_loose2 lutsOne kElectron 30 1 kElectron 20 2 = some r ∧
      sf_leptonID_and_Iso_tight2 lutsOne kElectron 30 1 kElectron 20 2 = some (l * r) ∧
      sf_leptonID_and_Iso_fakeable2 lutsOne kElectron 30 1 kElectron 20 2 = some (l * 1)) ∧
    sf_leptonID_and_Iso_fakeable_to_loose2 lutsOne kElectron 30 1 kElectron 20 2 = some 1 :=
  sf_leptonID_tiered_composition lutsOne kElectron kElectron 30 1 20 2
    (Or.inl rfl) (Or.inl rfl)

/-- C2: the trigger-efficiency scale factor: one-lepton form gives
0.99/0.95 for an electron above/at-or-below 40 GeV, 0.98 for a muon, 1 for
any other type; two-lepton form gives 0.99/0.95 for an electron pair with
the larger pt above/at-or-below 40 GeV, 0.98 for a muon pair, and 1 for
every mixed or unrecognized pair. -/
theorem sf_triggerEff_spec :
    (∀ pt eta : ℚ, pt > 40 → sf_triggerEff1 kElectron pt eta = 0.99) ∧
    (∀ pt eta : ℚ, pt ≤ 40 → sf_triggerEff1 kElectron pt eta = 0.95) ∧
    (∀ pt eta : ℚ, sf_triggerEff1 kMuon pt eta = 0.98) ∧
    (∀ (t : Int) (pt eta : ℚ), t ≠ kElectron → t ≠ kMuon →
      sf_triggerEff1 t pt eta = 1.00) ∧
    (∀ pt1 eta1 pt2 eta2 : ℚ, max pt1 pt2 > 40 →
      sf_triggerEff2 kElectron pt1 eta1 kElectron pt2 eta2 = 0.99) ∧
    (∀ pt1 eta1 pt2 eta2 : ℚ, max pt1 pt2 ≤ 40 →
      sf_triggerEff2 kElectron pt1 eta1 kElectron pt2 eta2 = 0.95) ∧
    (∀ pt1 eta1 pt2 eta2 : ℚ,
      sf_triggerEff2 kMuon pt1 eta1 kMuon pt2 eta2 = 0.98) ∧
    (∀ (t1 t2 : Int) (pt1 eta1 pt2 eta2 : ℚ),
      ¬(t1 = kElectron ∧ t2 = kElectron) → ¬(t1 = kMuon ∧ t2 = kMuon) →
      sf_triggerEff2 t1 pt1 eta1 t2 pt2 eta2 = 1.00) := by
  refine ⟨?_, ?_, ?_, ?_, ?_, ?_, ?_, ?_⟩
  · intro pt eta h
    simp [sf_triggerEff1, h]
  · intro pt eta h
    simp [sf_triggerEff1, not_lt.mpr h]
  · intro pt eta
    simp [sf_triggerEff1, kElectron, kMuon]
  · intro t pt eta h1 h2
    simp [sf_triggerEff1, h1, h2]
  · intro pt1 eta1 pt2 eta2 h
    simp [sf_triggerEff2, h]
  · intro pt1 eta1 pt2 eta2 h
    simp [sf_triggerEff2, not_lt.mpr h]
  · intro pt1 eta1 pt2 eta2
    simp [sf_triggerEff2, kElectron, kMuon]
  · intro t1 t2 pt1 eta1 pt2 eta2 h1 h2
    simp [sf_triggerEff2, h1, h2]

/-- Witness for C2 at the spec's concrete inputs: electron pair at pt
(45, 30) gives 0.99, at (30, 20) gives 0.95, an electron-muon pair gives 1,
a single electron at 45 gives 0.99, at 40 gives 0.95, a single muon 0.98,
an unrecognized type 1. -/
theorem sf_triggerEff_spec_witness :
    sf_triggerEff2 kElectron 45 1 kElectron 30 1 = 0.99 ∧
    sf_triggerEff2 kElectron 30 1 kElectron 20 1 = 0.95 ∧
    sf_triggerEff2 kElectron 45 1 kMuon 30 1 = 1.00 ∧
    sf_triggerEff2 kMuon 45 1 kMuon 30 1 = 0.98 ∧
    sf_triggerEff1 kElectron 45 1 = 0.99 ∧
    sf_triggerEff1 kElectron 40 1 = 0.95 ∧
    sf_triggerEff1 kMuon 40 1 = 0.98 ∧
    sf_triggerEff1 99 40 1 = 1.00 :=
  ⟨sf_triggerEff_spec.2.2.2.2.1 45 1 30 1 (by norm_num),
   sf_triggerEff_spec.2.2.2.2.2.1 30 1 20 1 (by norm_num),
   sf_triggerEff_spec.2.2.2.2.2.2.2 kElectron kMuon 45 1 30 1
     (by simp [kElectron, kMuon]) (by simp [kElectron, kMuon]),
   sf_triggerEff_spec.2.2.2.2.2.2.1 45 1 30 1,
   sf_triggerEff_spec.1 45 1 (by norm_num),
   sf_triggerEff_spec.2.1 40 1 (by norm_num),
   sf_triggerEff_spec.2.2.1 40 1,
   sf_triggerEff_spec.2.2.2.1 99 40 1 (by decide) (by decide)⟩

/-- C3: the charge-misidentification probability: for an electron the
fixed per-bin literal determined by the |eta| region (barrel below 1.479,
endcap 1.479 to 2.5) and the pt bin (10-25, 25-50, at least 50); any input
outside those ranges gives the pre-initialized default 1; a muon always
gives 1. -/
theorem prob_chargeMisId_spec :
    (∀ pt eta : ℚ, |eta| < 1.479 → 10 ≤ pt → pt < 25 →
      prob_chargeMisId kElectron pt eta = some 0.0301) ∧
    (∀ pt eta : ℚ, |eta| < 1.479 → 25 ≤ pt → pt < 50 →
      prob_chargeMisId kElectron pt eta = some 0.0287) ∧
    (∀ pt eta : ℚ, |eta| < 1.479 → 50 ≤ pt →
      prob_chargeMisId kElectron pt eta = some 0.0293) ∧
    (∀ pt eta : ℚ, 1.479 ≤ |eta| → |eta| < 2.5 → 10 ≤ pt → pt < 25 →
      prob_chargeMisId kElectron pt eta = some 0.1728) ∧
    (∀ pt eta : ℚ, 1.479 ≤ |eta| → |eta| < 2.5 → 25 ≤ pt → pt < 50 →
      prob_chargeMisId kElectron pt eta = some 0.1974) ∧
    (∀ pt eta : ℚ, 1.479 ≤ |eta| → |eta| < 2.5 → 50 ≤ pt →
      prob_chargeMisId kElectron pt eta = some 0.3457) ∧
    (∀ pt eta : ℚ, 2.5 ≤ |eta| → prob_chargeMisId kElectron pt eta = some 1) ∧
    (∀ pt eta : ℚ, pt < 10 → prob_chargeMisId kElectron pt eta = some 1) ∧
    (∀ pt eta : ℚ, prob_chargeMisId kMuon pt eta = some 1) := by
  refine ⟨?_, ?_, ?_, ?_, ?_, ?_, ?_, ?_, ?_⟩
  · intro pt eta h1 h2 h3
    simp only [prob_chargeMisId]
    rw [if_pos (trivial : True), if_pos ⟨abs_nonneg eta, h1⟩, if_pos ⟨h2, h3⟩]
  · intro pt eta h1 h2 h3
    simp only [prob_chargeMisId]
    rw [if_pos (trivial : True), if_pos ⟨abs_nonneg eta, h1⟩,
      if_neg (by rintro ⟨-, hc⟩; linarith), if_pos ⟨h2, h3⟩]
  · intro pt eta h1 h2
    simp only [prob_chargeMisId]
    rw [if_pos (trivial : True), if_pos ⟨abs_nonneg eta, h1⟩,
      if_neg (by rintro ⟨-, hc⟩; linarith),
      if_neg (by rintro ⟨-, hc⟩; linarith), if_pos h2]
  · intro pt eta h1 h2 h3 h4
    simp only [prob_chargeMisId]
    rw [if_pos (trivial : True), if_neg (by rintro ⟨-, hc⟩; linarith),
      if_pos ⟨h1, h2⟩, if_pos ⟨h3, h4⟩]
  · intro pt eta h1 h2 h3 h4
    simp only [prob_chargeMisId]
    rw [if_pos (trivial : True), if_neg (by rintro ⟨-, hc⟩; linarith), if_pos ⟨h1, h2⟩,
      if_neg (by rintro ⟨-, hc⟩; linarith), if_pos ⟨h3, h4⟩]
  · intro pt eta h1 h2 h3
    simp only [prob_chargeMisId]
    rw [if_pos (trivial : True), if_neg (by rintro ⟨-, hc⟩; linarith), if_pos ⟨h1, h2⟩,
      if_neg (by rintro ⟨-, hc⟩; linarith),
      if_neg (by rintro ⟨-, hc⟩; linarith), if_pos h3]
  · intro pt eta h1
    simp only [prob_chargeMisId]
    rw [if_pos (trivial : True), if_neg (by rintro ⟨-, hc⟩; linarith),
      if_neg (by rintro ⟨-, hc⟩; linarith)]
  · intro pt eta hpt
    simp only [prob_chargeMisId]
    rw [if_pos (trivial : True)]
    have hn1 : ¬(pt ≥ 10 ∧ pt < 25) := by rintro ⟨hge, -⟩; linarith
    have hn2 : ¬(pt ≥ 25 ∧ pt < 50) := by rintro ⟨hge, -⟩; linarith
    have hn3 : ¬(pt ≥ 50) := by intro hc; linarith
    by_cases he1 : |eta| ≥ 0 ∧ |eta| < 1.479
    · rw [if_pos he1, if_neg hn1, if_neg hn2, if_neg hn3]
    · rw [if_neg he1]
      by_cases he2 : |eta| ≥ 1.479 ∧ |eta| < 2.5
      · rw [if_pos he2, if_neg hn1, if_neg hn2, if_neg hn3]
      · rw [if_neg he2]
  · intro pt eta
    simp [prob_chargeMisId, kElectron, kMuon]

/-- Witness for C3 at the spec's concrete inputs: electron |eta|=1 pt=30
gives 0.0287, electron |eta|=2 pt=60 gives 0.3457, electron |eta|=3 gives
the default 1, electron pt=5 gives the default 1, muon gives 1. -/
theorem prob_chargeMisId_spec_witness :
    prob_chargeMisId kElectron 30 1 = some 0.0287 ∧
    prob_chargeMisId kElectron 60 2 = some 0.3457 ∧
    prob_chargeMisId kElectron 30 3 = some 1 ∧
    prob_chargeMisId kElectron 5 1 = some 1 ∧
    prob_chargeMisId kMuon 30 1 = some 1 :=
  ⟨prob_chargeMisId_spec.2.1 30 1 (by norm_num) (by norm_num) (by norm_num),
   prob_chargeMisId_spec.2.2.2.2.2.1 60 2 (by norm_num) (by norm_num) (by norm_num),
   prob_chargeMisId_spec.2.2.2.2.2.2.1 30 3 (by norm_num),
   prob_chargeMisId_spec.2.2.2.2.2.2.2.1 5 1 (by norm_num),
   prob_chargeMisId_spec.2.2.2.2.2.2.2.2 30 1⟩

/-- C4 counterexample: the trigger-efficiency entry point does not abort on
an unrecognized lepton type; at type 99 (neither electron nor muon) it
silently returns the fallback value 1.00 in both forms. -/
theorem engine_unrecognized_aborts_counterexample :
    (99 : Int) ≠ kElectron ∧ (99 : Int) ≠ kMuon ∧
    sf_triggerEff1 99 50 0 = 1.00 ∧
    sf_triggerEff2 99 50 0 99 50 0 = 1.00 := by
  refine ⟨by decide, by decide, ?_, ?_⟩ <;>
    simp [sf_triggerEff1, sf_triggerEff2, kElectron, kMuon]

/-- C4 amended: every identification+isolation composition entry point
(loose, tight-to-loose, tight, fakeable, in both one- and two-lepton forms)
and the charge-misidentification probability hit `assert(0)` on an
unrecognized lepton type in either position (the two-lepton forms abort
also when only the second lepton's type is unrecognized, via the second
`assert(0)`), while the trigger-efficiency factor instead returns the
fallback 1.00 in every such case. -/
theorem engine_unrecognized_kind_aborts (luts : Luts) (t t2 : Int)
    (pt eta pt2 eta2 : ℚ) (h1 : t ≠ kElectron) (h2 : t ≠ kMuon) :
    sf_leptonID_and_Iso_loose1 luts t pt eta = none ∧
    sf_leptonID_and_Iso_tight_to_loose1 luts t pt eta = none ∧
    sf_leptonID_and_Iso_tight1 luts t pt eta = none ∧
    sf_leptonID_and_Iso_fakeable1 luts t pt eta = none ∧
    prob_chargeMisId t pt eta = none ∧
    sf_leptonID_and_Iso_loose2 luts t pt eta t2 pt2 eta2 = none ∧
    sf_leptonID_and_Iso_tight_to_loose2 luts t pt eta t2 pt2 eta2 = none ∧
    sf_leptonID_and_Iso_tight2 luts t pt eta t2 pt2 eta2 = none ∧
    sf_leptonID_and_Iso_fakeable2 luts t pt eta t2 pt2 eta2 = none ∧
    sf_triggerEff1 t pt eta = 1.00 ∧
    sf_triggerEff2 t pt eta t2 pt2 eta2 = 1.00 ∧
    (∀ s : Int, sf_leptonID_and_Iso_loose2 luts s pt2 eta2 t pt eta = none) ∧
    (∀ s : Int, sf_leptonID_and_Iso_tight_to_loose2 luts s pt2 eta2 t pt eta = none) ∧
    (∀ s : Int, sf_leptonID_and_Iso_tight2 luts s pt2 eta2 t pt eta = none) ∧
    (∀ s : Int, sf_leptonID_and_Iso_fakeable2 luts s pt2 eta2 t pt eta = none) ∧
    (∀ s : Int, sf_triggerEff2 s pt2 eta2 t pt eta = 1.00) := by
  have hloose2r : ∀ s : Int,
      sf_leptonID_and_Iso_loose2 luts s pt2 eta2 t pt eta = none := by
    intro s
    cases hd : leptonDispatch sf_electronID_and_Iso_loose sf_muonID_and_Iso_loose
        luts s pt2 eta2 <;>
      simp [sf_leptonID_and_Iso_loose2, hd, leptonDispatch, h1, h2]
  have httl2r : ∀ s : Int,
      sf_leptonID_and_Iso_tight_to_loose2 luts s pt2 eta2 t pt eta = none := by
    intro s
    cases hd : leptonDispatch sf_electronID_and_Iso_tight_to_loose
        sf_muonID_and_Iso_tight_to_loose luts s pt2 eta2 <;>
      simp [sf_leptonID_and_Iso_tight_to_loose2, hd, leptonDispatch, h1, h2]
  refine ⟨?_, ?_, ?_, ?_, ?_, ?_, ?_, ?_, ?_, ?_, ?_, hloose2r, httl2r,
    fun s => by simp [sf_leptonID_and_Iso_tight2, hloose2r s],
    fun s => by simp [sf_leptonID_and_Iso_fakeable2, hloose2r s],
    fun s => by simp [sf_triggerEff2, h1, h2]⟩ <;>
    simp [sf_leptonID_and_Iso_loose1, sf_leptonID_and_Iso_tight_to_loose1,
      sf_leptonID_and_Iso_tight1, sf_leptonID_and_Iso_fakeable1,
      sf_leptonID_and_Iso_loose2, sf_leptonID_and_Iso_tight_to_loose2,
      sf_leptonID_and_Iso_tight2, sf_leptonID_and_Iso_fakeable2,
      prob_chargeMisId, sf_triggerEff1, sf_triggerEff2,
      leptonDispatch, h1, h2]

/-- Witness for the amended C4 at type 99 with constant lookup tables,
with the unrecognized type in the first position and, for the two-lepton
forms, also in the second position behind a recognized muon. -/
theorem engine_unrecognized_kind_aborts_witness :
    sf_leptonID_and_Iso_loose1 lutsOne 99 50 1 = none ∧
    sf_leptonID_and_Iso_tight_to_loose1 lutsOne 99 50 1 = none ∧
    sf_leptonID_and_Iso_tight1 lutsOne 99 50 1 = none ∧
    sf_leptonID_and_Iso_fakeable1 lutsOne 99 50 1 = none ∧
    prob_chargeMisId 99 50 1 = none ∧
    sf_leptonID_and_Iso_loose2 lutsOne 99 50 1 0 40 2 = none ∧
    sf_leptonID_and_Iso_tight_to_loose2 lutsOne 99 50 1 0 40 2 = none ∧
    sf_leptonID_and_Iso_tight2 lutsOne 99 50 1 0 40 2 = none ∧
    sf_leptonID_and_Iso_fakeable2 lutsOne 99 50 1 0 40 2 = none ∧
    sf_triggerEff1 99 50 1 = 1.00 ∧
    sf_triggerEff2 99 50 1 0 40 2 = 1.00 ∧
    sf_leptonID_and_Iso_loose2 lutsOne kMuon 40 2 99 50 1 = none ∧
    sf_leptonID_and_Iso_tight_to_loose2 lutsOne kMuon 40 2 99 50 1 = none ∧
    sf_leptonID_and_Iso_tight2 lutsOne kMuon 40 2 99 50 1 = none ∧
    sf_leptonID_and_Iso_fakeable2 lutsOne kMuon 40 2 99 50 1 = none ∧
    sf_triggerEff2 kMuon 40 2 99 50 1 = 1.00 := by
  have H := engine_unrecognized_kind_aborts lutsOne 99 0 50 1 40 2
    (by decide) (by decide)
  exact ⟨H.1, H.2.1, H.2.2.1, H.2.2.2.1, H.2.2.2.2.1, H.2.2.2.2.2.1,
    H.2.2.2.2.2.2.1, H.2.2.2.2.2.2.2.1, H.2.2.2.2.2.2.2.2.1,
    H.2.2.2.2.2.2.2.2.2.1, H.2.2.2.2.2.2.2.2.2.2.1,
    H.2.2.2.2.2.2.2.2.2.2.2.1 kMuon, H.2.2.2.2.2.2.2.2.2.2.2.2.1 kMuon,
    H.2.2.2.2.2.2.2.2.2.2.2.2.2.1 kMuon,
    H.2.2.2.2.2.2.2.2.2.2.2.2.2.2.1 kMuon,
    H.2.2.2.2.2.2.2.2.2.2.2.2.2.2.2 kMuon⟩

/-- A hadronic tau exactly at every default threshold boundary of the
tight selector: pt 20, |eta| 2.3, |dz| 0.2, every id flag and raw score at
its minimum, every cut-based isolation score at its maximum. -/
def boundaryHadTau : RecoHadTau :=
  mkRecoHadTau 20 2.3 0 0 0 0 0.2 1 0 (-1000) (-1000000) (-1000) (-1000000)
    (-1000) 1000000 1 1000000 (-1000) (-1000)

/-- C5: with default thresholds the hadronic-tau tight selector passes iff
all fourteen inclusive conjunctive conditions hold; the boundary object
passes, and failing any single one of the fourteen conditions alone makes
the selector return false. -/
theorem hadTauSelectorTight_spec :
    (∀ tau : RecoHadTau, RecoHadTauSelectorTight.mkDefault.eval tau = true ↔
      (tau.pt ≥ 20 ∧ tau.absEta ≤ 2.3 ∧ |tau.dz| ≤ 0.2 ∧
       tau.decayModeFinding ≥ 1 ∧ tau.id_mva_dR03 ≥ -1000 ∧
       tau.raw_mva_dR03 ≥ -1000000 ∧ tau.id_mva_dR05 ≥ -1000 ∧
       tau.raw_mva_dR05 ≥ -1000000 ∧ tau.id_cut_dR03 ≥ -1000 ∧
       tau.raw_cut_dR03 ≤ 1000000 ∧ tau.id_cut_dR05 ≥ 1 ∧
       tau.raw_cut_dR05 ≤ 1000000 ∧ tau.antiElectron ≥ -1000 ∧
       tau.antiMuon ≥ -1000)) ∧
    RecoHadTauSelectorTight.mkDefault.eval boundaryHadTau = true ∧
    RecoHadTauSelectorTight.mkDefault.eval { boundaryHadTau with pt := 19 } = false ∧
    RecoHadTauSelectorTight.mkDefault.eval { boundaryHadTau with absEta := 2.4 } = false ∧
    RecoHadTauSelectorTight.mkDefault.eval { boundaryHadTau with dz := 0.21 } = false ∧
    RecoHadTauSelectorTight.mkDefault.eval { boundaryHadTau with decayModeFinding := 0 } = false ∧
    RecoHadTauSelectorTight.mkDefault.eval { boundaryHadTau with id_mva_dR03 := -1001 } = false ∧
    RecoHadTauSelectorTight.mkDefault.eval { boundaryHadTau with raw_mva_dR03 := -1000001 } = false ∧
    RecoHadTauSelectorTight.mkDefault.eval { boundaryHadTau with id_mva_dR05 := -1001 } = false ∧
    RecoHadTauSelectorTight.mkDefault.eval { boundaryHadTau with raw_mva_dR05 := -1000001 } = false ∧
    RecoHadTauSelectorTight.mkDefault.eval { boundaryHadTau with id_cut_dR03 := -1001 } = false ∧
    RecoHadTauSelectorTight.mkDefault.eval { boundaryHadTau with raw_cut_dR03 := 1000001 } = false ∧
    RecoHadTauSelectorTight.mkDefault.eval { boundaryHadTau with id_cut_dR05 := 0 } = false ∧
    RecoHadTauSelectorTight.mkDefault.eval { boundaryHadTau with raw_cut_dR05 := 1000001 } = false ∧
    RecoHadTauSelectorTight.mkDefault.eval { boundaryHadTau with antiElectron := -1001 } = false ∧
    RecoHadTauSelectorTight.mkDefault.eval { boundaryHadTau with antiMuon := -1001 } = false := by
  constructor
  · intro tau
    simp only [RecoHadTauSelectorTight.eval, RecoHadTauSelectorTight.mkDefault,
      Bool.and_eq_true, decide_eq_true_eq, and_assoc, ge_iff_le]
    try tauto
  · refine ⟨?_, ?_, ?_, ?_, ?_, ?_, ?_, ?_, ?_, ?_, ?_, ?_, ?_, ?_, ?_⟩ <;>
      norm_num [RecoHadTauSelectorTight.eval, RecoHadTauSelectorTight.mkDefault,
        boundaryHadTau, mkRecoHadTau, abs_le, lt_abs, le_abs]

/-- A muon passing every primary fakeable cut, with multivariate score at
the 0.75 bin boundary. -/
def binBoundaryMuon : RecoMuon :=
  { pt := 30, absEta := 1, dxy := 0, dz := 0, relIso := 0, sip3d := 0
    mvaRawTTH := 0.75, jetPtRatio := 0.5, jetBtagCSV := 0.5
    tightCharge := 0, passesLooseIdPOG := 1, passesMediumIdPOG := 0 }

/-- C6: with default thresholds the fakeable muon selector passes iff the
primary cuts pass (medium id and tight charge are not applied) and the
bin-dependent secondary cuts pass, the bin chosen by mvaRawTTH against
0.75 (inclusive for bin 0); score exactly 0.75 selects bin 0
(jetPtRatio at least 0.30, btag at most 0.605) and 0.749 selects bin 1
(jetPtRatio at least -1000, btag at most 0.89). -/
theorem muonSelectorFakeable_spec :
    (∀ muon : RecoMuon, RecoMuonSelectorFakeable.mkDefault.eval muon = true ↔
      (muon.pt ≥ 10 ∧ muon.absEta ≤ 2.4 ∧ |muon.dxy| ≤ 0.05 ∧ |muon.dz| ≤ 0.1 ∧
       muon.relIso ≤ 0.4 ∧ muon.sip3d ≤ 8 ∧ muon.passesLooseIdPOG ≠ 0 ∧
       (if muon.mvaRawTTH ≥ 0.75
        then muon.jetPtRatio ≥ 0.30 ∧ muon.jetBtagCSV ≤ 0.605
        else muon.jetPtRatio ≥ -1000 ∧ muon.jetBtagCSV ≤ 0.89))) ∧
    RecoMuonSelectorFakeable.mkDefault.eval
      { binBoundaryMuon with jetPtRatio := 0.29, jetBtagCSV := 0.5 } = false ∧
    RecoMuonSelectorFakeable.mkDefault.eval
      { binBoundaryMuon with mvaRawTTH := 0.749, jetPtRatio := 0.29, jetBtagCSV := 0.5 } = true ∧
    RecoMuonSelectorFakeable.mkDefault.eval
      { binBoundaryMuon with jetPtRatio := 0.5, jetBtagCSV := 0.7 } = false ∧
    RecoMuonSelectorFakeable.mkDefault.eval
      { binBoundaryMuon with mvaRawTTH := 0.749, jetPtRatio := 0.5, jetBtagCSV := 0.7 } = true ∧
    RecoMuonSelectorFakeable.mkDefault.eval
      { binBoundaryMuon with jetPtRatio := 0.30, jetBtagCSV := 0.605 } = true := by
  constructor
  · intro muon
    by_cases hc : muon.mvaRawTTH ≥ (0.75 : ℚ)
    · simp [RecoMuonSelectorFakeable.eval, RecoMuonSelectorFakeable.mkDefault,
        hc, Bool.and_eq_true, decide_eq_true_eq, and_assoc]
    · simp [RecoMuonSelectorFakeable.eval, RecoMuonSelectorFakeable.mkDefault,
        hc, Bool.and_eq_true, decide_eq_true_eq, and_assoc]
  · refine ⟨?_, ?_, ?_, ?_, ?_⟩ <;>
      norm_num [RecoMuonSelectorFakeable.eval, RecoMuonSelectorFakeable.mkDefault,
        binBoundaryMuon, List.getD, abs_le, lt_abs, le_abs]

/-- The collection selector agrees with `List.filter`. -/
lemma particleCollectionSelector_eq_filter {Tobj : Type} (sel : Tobj → Bool)
    (particles : List Tobj) :
    particleCollectionSelector sel particles = particles.filter sel := by
  induction particles with
  | nil => rfl
  | cons p ps ih =>
    by_cases h : sel p <;>
      simp [particleCollectionSelector, List.filter_cons, h, ih]

/-- C7: the collection selector returns exactly the order-preserving
subsequence of input elements the predicate accepts: it equals the filter
of the input, is a sublist of the input, returns the whole input on the
constantly-true predicate and the empty list on the constantly-false
predicate. -/
theorem particleCollectionSelector_spec (Tobj : Type) (sel : Tobj → Bool)
    (particles : List Tobj) :
    particleCollectionSelector sel particles = particles.filter sel ∧
    (particleCollectionSelector sel particles).Sublist particles ∧
    particleCollectionSelector (fun _ => true) particles = particles ∧
    particleCollectionSelector (fun _ => false) particles = [] := by
  refine ⟨particleCollectionSelector_eq_filter sel particles, ?_, ?_, ?_⟩
  · rw [particleCollectionSelector_eq_filter]
    exact List.filter_sublist particles
  · rw [particleCollectionSelector_eq_filter]
    simp
  · rw [particleCollectionSelector_eq_filter]
    simp

/-- A generic `RecoLepton` whose PDG id (15: a tau) is neither an electron
nor a muon code. -/
def tauPdgLepton : RecoLepton :=
  { dxy := 0, dz := 0, rel_iso := 0, sip3d := 0, mass := 0, pt := 0, eta := 0
    mva_tth := 0, phi := 0, pdg_id := 15, med_mu_id := 0, ele_mva_id := 0
    lost_hits := 0, loose_id := 0, tight_charge := 0, pass_conv_veto := 0 }

/-- C8 counterexample: a constructed instance of the lepton hierarchy (the
generic base with PDG id 15) on which `is_electron()` and `is_muon()` are
both false, so it is not the case that exactly one of the two holds for
every constructed instance. -/
theorem lepton_kind_exhaustive_counterexample :
    (LeptonInstance.base tauPdgLepton).is_electron = false ∧
    (LeptonInstance.base tauPdgLepton).is_muon = false := by
  decide

/-- C8 amended: `is_electron()` and `is_muon()` are mutually exclusive on
every instance of the hierarchy; on the concrete muon variant exactly one
holds (hard-wired), and on the generic base exactly one holds precisely
when the stored PDG id satisfies |pdg_id| = 11 or |pdg_id| = 13. -/
theorem lepton_kind_flags_spec :
    (∀ inst : LeptonInstance, (inst.is_electron && inst.is_muon) = false) ∧
    (∀ m : RecoMuon, (LeptonInstance.muon m).is_muon = true ∧
      (LeptonInstance.muon m).is_electron = false) ∧
    (∀ l : RecoLepton,
      ((LeptonInstance.base l).is_electron = true ∨
       (LeptonInstance.base l).is_muon = true) ↔
      (l.pdg_id.natAbs = 11 ∨ l.pdg_id.natAbs = 13)) := by
  refine ⟨?_, ?_, ?_⟩
  · rintro (l | m)
    · have h : l.pdg_id.natAbs ≠ 11 ∨ l.pdg_id.natAbs ≠ 13 := by omega
      rcases h with h | h <;>
        simp [LeptonInstance.is_electron, LeptonInstance.is_muon,
          RecoLepton.is_electron, RecoLepton.is_muon, h]
    · simp [LeptonInstance.is_electron, LeptonInstance.is_muon,
        RecoMuon.is_electron, RecoMuon.is_muon]
  · intro m
    exact ⟨rfl, rfl⟩
  · intro l
    simp [LeptonInstance.is_electron, LeptonInstance.is_muon,
      RecoLepton.is_electron, RecoLepton.is_muon]

/-- A two-entry reader state: each field array returns its index (cast to
the field type). -/
def sampleTauState : RecoHadTauReaderState :=
  { nHadTaus := 2
    hadTau_pt := fun i => i, hadTau_eta := fun i => i, hadTau_phi := fun i => i
    hadTau_mass := fun i => i, hadTau_charge := fun i => i
    hadTau_dxy := fun i => i, hadTau_dz := fun i => i
    hadTau_idDecayMode := fun i => i, hadTau_idDecayModeNewDMs := fun i => i
    hadTau_idMVA_dR03 := fun i => i, hadTau_rawMVA_dR03 := fun i => i
    hadTau_idMVA_dR05 := fun i => i, hadTau_rawMVA_dR05 := fun i => i
    hadTau_idCombIso_dR03 := fun i => i, hadTau_rawCombIso_dR03 := fun i => i
    hadTau_idCombIso_dR05 := fun i => i, hadTau_rawCombIso_dR05 := fun i => i
    hadTau_idAgainstElec := fun i => i, hadTau_idAgainstMu := fun i => i }

/-- The sample state with an out-of-capacity count of 33. -/
def overflowTauState : RecoHadTauReaderState :=
  { sampleTauState with nHadTaus := 33 }

/-- C9: `RecoHadTauReader::read` raises the fatal error iff the stored
count exceeds the capacity bound 32 (32 itself is accepted); on success it
returns exactly the stored count of records, the i-th built from entry i of
each parallel field array, in index order. -/
theorem recoHadTauReader_read_spec (g : RecoHadTauReaderState) :
    ((∃ msg, g.read = .error msg) ↔ g.nHadTaus > 32) ∧
    (g.nHadTaus ≤ 32 →
      g.read = .ok ((List.range g.nHadTaus.toNat).map g.entry)) ∧
    (∀ l, g.read = .ok l →
      l.length = g.nHadTaus.toNat ∧
      ∀ i, ∀ hi : i < l.length, l.get ⟨i, hi⟩ = g.entry i) := by
  have hmax : max_nHadTaus = 32 := rfl
  by_cases h : g.nHadTaus > 32
  · refine ⟨⟨fun _ => h,
      fun _ => ⟨"Number of hadronic taus stored in Ntuple exceeds max_nHadTaus", ?_⟩⟩,
      fun hle => absurd h (not_lt.mpr hle), ?_⟩
    · simp [RecoHadTauReaderState.read, hmax, h]
    · intro l hl
      simp [RecoHadTauReaderState.read, hmax, h] at hl
  · refine ⟨⟨fun ⟨msg, hmsg⟩ => ?_, fun hc => absurd hc h⟩, fun _ => ?_, ?_⟩
    · simp [RecoHadTauReaderState.read, hmax, h] at hmsg
    · simp [RecoHadTauReaderState.read, hmax, h]
    · intro l hl
      simp only [RecoHadTauReaderState.read, hmax, if_neg h, Except.ok.injEq] at hl
      subst hl
      refine ⟨by simp, ?_⟩
      intro i hi
      simp only [List.length_map, List.length_range] at hi
      simp [List.get_eq_getElem, List.getElem_map, List.getElem_range]

/-- Witness for C9: the two-entry state is read into its two records, and
the 33-count state raises the error. -/
theorem recoHadTauReader_read_spec_witness :
    sampleTauState.read =
      .ok ((List.range sampleTauState.nHadTaus.toNat).map sampleTauState.entry) ∧
    (∃ msg, overflowTauState.read = .error msg) ∧
    ((List.range sampleTauState.nHadTaus.toNat).map sampleTauState.entry).length
      = sampleTauState.nHadTaus.toNat :=
  ⟨(recoHadTauReader_read_spec sampleTauState).2.1 (by decide),
   ((recoHadTauReader_read_spec overflowTauState).1).mpr (by decide),
   ((recoHadTauReader_read_spec sampleTauState).2.2
      ((List.range sampleTauState.nHadTaus.toNat).map sampleTauState.entry)
      ((recoHadTauReader_read_spec sampleTauState).2.1 (by decide))).1⟩

/-- C10: constructing a `GenLepton` divides by zero (undefined behaviour,
modelled as `none`) exactly at pdgId = 0; for every nonzero pdgId the
stored charge `-pdgId / |pdgId|` is -1 for positive pdgId and +1 for
negative pdgId. -/
theorem genLepton_charge_spec (pt eta phi mass : ℚ) (pdgId : Int) :
    (mkGenLepton pt eta phi mass pdgId = none ↔ pdgId = 0) ∧
    (pdgId ≠ 0 → Option.map GenLepton.charge (mkGenLepton pt eta phi mass pdgId)
      = some (genLeptonCharge pdgId)) ∧
    (0 < pdgId → Option.map GenLepton.charge (mkGenLepton pt eta phi mass pdgId)
      = some (-1)) ∧
    (pdgId < 0 → Option.map GenLepton.charge (mkGenLepton pt eta phi mass pdgId)
      = some 1) := by
  refine ⟨⟨fun h => ?_, fun h => by simp [mkGenLepton, h]⟩,
    fun hne => by simp [mkGenLepton, hne], fun hpos => ?_, fun hneg => ?_⟩
  · by_contra hne
    simp [mkGenLepton, hne] at h
  · have hne := hpos.ne'
    simp only [mkGenLepton, hne, if_neg, if_false, Option.map_some']
    have hch : genLeptonCharge pdgId = -1 := by
      unfold genLeptonCharge
      rw [Int.natAbs_of_nonneg hpos.le, Int.neg_ediv_of_dvd dvd_rfl,
        Int.ediv_self hne]
    simp [hch]
  · have hne := hneg.ne
    simp only [mkGenLepton, hne, if_neg, if_false, Option.map_some']
    have hch : genLeptonCharge pdgId = 1 := by
      unfold genLeptonCharge
      rw [Int.ofNat_natAbs_of_nonpos hneg.le,
        Int.ediv_self (neg_ne_zero.mpr hne)]
    simp [hch]

/-- Witness for C10 at pdgId 5 and -7: the positive id gives charge -1, the
negative one +1, and pdgId 0 is rejected. -/
theorem genLepton_charge_spec_witness :
    Option.map GenLepton.charge (mkGenLepton 1 0 0 0 5) = some (-1) ∧
    Option.map GenLepton.charge (mkGenLepton 1 0 0 0 (-7)) = some 1 ∧
    (mkGenLepton 1 0 0 0 0 = none ↔ (0 : Int) = 0) :=
  ⟨(genLepton_charge_spec 1 0 0 0 5).2.2.1 (by decide),
   (genLepton_charge_spec 1 0 0 0 (-7)).2.2.2 (by decide),
   (genLepton_charge_spec 1 0 0 0 0).1⟩

end TthHtt
